import Mathlib

/-!
Verification of the falling-petals canvas animation (assets/scripts/petals.js).

The script animates petal-shaped particles on a 2D canvas.  This file embeds
its numeric logic shallowly in Lean: JS numbers become rationals, the
particle record becomes a structure, `Math.random()` draws become explicit
rational parameters in `[0, 1]`, and the per-frame / per-event handlers
become pure state-transforming functions.  Every definition is transcribed
from the source; theorems then settle the specified properties.
-/

namespace Petals

/-- JS helper `clamp(v, min, max) = Math.max(min, Math.min(max, v))`. -/
def clampQ (v lo hi : ℚ) : ℚ := max lo (min hi v)

/-- JS helper `lerp(a, b, t) = a + (b - a) * t`. -/
def lerpQ (a b t : ℚ) : ℚ := a + (b - a) * t

/-- JS helper `rand(min, max) = min + Math.random() * (max - min)`, with the
uniform draw `r` made an explicit parameter. -/
def randQ (lo hi r : ℚ) : ℚ := lo + r * (hi - lo)

/-- JS `Math.round`: rounds half toward positive infinity. -/
def jsRound (x : ℚ) : ℤ := ⌊x + 1/2⌋

/-- An integer rgb triple (palette entries; `mixRgb` rounds each channel). -/
structure RGB where
  r : ℤ
  g : ℤ
  b : ℤ
deriving DecidableEq

/-- JS helper `mixRgb(a, b, t)`: channel-wise rounded linear blend. -/
def mixRgb (a b : RGB) (t : ℚ) : RGB :=
  ⟨jsRound (lerpQ a.r b.r t), jsRound (lerpQ a.g b.g t), jsRound (lerpQ a.b b.b t)⟩

/-- The value of an `rgba(r, g, b, alpha)` CSS color string. -/
structure ColorStr where
  r : ℤ
  g : ℤ
  b : ℤ
  a : ℚ
deriving DecidableEq

/-- JS helper `rgba(rgb, alpha)`. -/
def rgba (c : RGB) (alpha : ℚ) : ColorStr := ⟨c.r, c.g, c.b, alpha⟩

/-- The static `config` object of the script. -/
structure Config where
  baseCount : ℚ
  maxCount : ℚ
  minSize : ℚ
  maxSize : ℚ
  windStrength : ℚ
  windBias : ℚ
  windGustiness : ℚ
  windScale : ℚ
  motion : ℚ
  fallSpeed : ℚ
  blurPx : ℚ

/-- The tuned configuration constants of the script. -/
def config : Config :=
  { baseCount := 42, maxCount := 90, minSize := 8, maxSize := 28
    windStrength := 12/100, windBias := 62/100, windGustiness := 18/100
    windScale := 11/100, motion := 4/10, fallSpeed := 1, blurPx := 7/10 }

/-- One entry of `quality.levels`. -/
structure QualityLevel where
  dprMax : ℚ
  countScale : ℚ
  blurPx : ℚ
deriving DecidableEq

/-- The `quality.levels` array: preset index 0 is the highest quality,
larger indices trade quality for speed. -/
def qualityLevels : List QualityLevel :=
  [ { dprMax := 2, countScale := 1, blurPx := config.blurPx }
  , { dprMax := 3/2, countScale := 82/100, blurPx := max (4/10) (config.blurPx * (8/10)) }
  , { dprMax := 5/4, countScale := 62/100, blurPx := max (2/10) (config.blurPx * (6/10)) } ]

/-- `quality.levels.length`. -/
def numLevels : ℕ := qualityLevels.length

/-- `getQualitySettings()` for a given preset index (JS indexing is total
here because the index is always kept in range). -/
def getQualitySettings (level : ℕ) : QualityLevel :=
  qualityLevels.getD level { dprMax := 2, countScale := 1, blurPx := config.blurPx }

/-- `getPetalAlpha(seed)`: the stored visibility boost is clamped to `[0,1]`,
the alpha range endpoints are raised linearly with the boost, and the result
is clamped to the global floor/ceiling `[0.42, 0.95]`. -/
def getPetalAlpha (visibilityBoost seed : ℚ) : ℚ :=
  let boost := clampQ visibilityBoost 0 1
  let mn := lerpQ (48/100) (62/100) boost
  let mx := lerpQ (78/100) (92/100) boost
  clampQ (lerpQ mn mx seed) (42/100) (95/100)

/-- The boost value computed inside `updateVisibilityBoost()`.  Each media
query may be unavailable (`none`), in which case its contribution defaults
to zero; `lowGamut` holds when the `p3` gamut query is present and does not
match. -/
def updateVisibilityBoostValue (more less reduceTransparency forcedColors gamutP3 : Option Bool) : ℚ :=
  let lowGamut := match gamutP3 with
    | some m => !m
    | none => false
  clampQ
    ((if more.getD false then 45/100 else 0) +
      (if forcedColors.getD false then 1/2 else 0) +
      (if reduceTransparency.getD false then 1/4 else 0) +
      (if lowGamut then 1/5 else 0) -
      (if less.getD false then 1/5 else 0))
    0 1

/-- Modelled from the spec sentence for the boost: a weighted sum of the
five preference signals, `+0.45` increased contrast, `+0.5` forced colors,
`+0.25` reduced transparency, `+0.2` narrow gamut, `-0.2` decreased
contrast, clamped to `[0,1]`. -/
def specVisibilityBoost (increasedContrast forcedColors reducedTransparency narrowGamut decreasedContrast : Bool) : ℚ :=
  let weighted :=
    (if increasedContrast then 45/100 else 0) +
    (if forcedColors then 1/2 else 0) +
    (if reducedTransparency then 1/4 else 0) +
    (if narrowGamut then 1/5 else 0) -
    (if decreasedContrast then 1/5 else 0)
  clampQ weighted 0 1

/-- `resize()` target-count computation: `minCount = 12`, the maximum count
scales with the preset's `countScale`, and the rounded area-proportional
count is clamped between the two. -/
def resizeTargetCount (wv hv countScale : ℚ) : ℤ :=
  let area := wv * hv
  let minCount : ℤ := 12
  let maxCount : ℤ := max minCount (jsRound (config.maxCount * countScale))
  max minCount (min maxCount (jsRound (config.baseCount * (area / (1100 * 700)) * countScale)))

/-- Modelled from the spec sentence for the target count:
`clamp(round(baselineCount * (viewportArea / referenceArea) * presetCountScale), minCount, maxCount)`
with baseline 42, reference area `1100 x 700`, `minCount = 12` and
`maxCount` the preset-scaled rounding of 90. -/
def specTargetCount (wv hv countScale : ℚ) : ℤ :=
  let minCount : ℤ := 12
  let maxCount : ℤ := max minCount (jsRound (90 * countScale))
  max minCount (min maxCount (jsRound (42 * ((wv * hv) / (1100 * 700)) * countScale)))

/-- The mutable state read and written by the per-frame performance and
quality logic: the active preset index `quality.level`, the cooldown stamp
`quality.lastAdjust`, the smoothed frame cost `perf.avgMs`, and the previous
frame timestamp `lastT`. -/
structure SimState where
  level : ℕ
  lastAdjust : ℚ
  avgMs : ℚ
  lastT : ℚ
deriving DecidableEq

/-- `applyQualityLevel(nextLevel)`: clamp the requested index to the preset
range and change the level only when it differs (the triggered `resize` does
not touch any `SimState` field). -/
def applyQualityLevel (nextLevel : ℕ) (st : SimState) : SimState :=
  let clamped := max 0 (min (numLevels - 1) nextLevel)
  if clamped = st.level then st else { st with level := clamped }

/-- `maybeAdjustQuality(nowMs)`: return untouched inside the 1200ms cooldown
window, otherwise stamp the window and step the preset index by the two
frame-cost thresholds. -/
def maybeAdjustQuality (nowMs : ℚ) (st : SimState) : SimState :=
  if nowMs - st.lastAdjust < 1200 then st
  else
    let st1 := { st with lastAdjust := nowMs }
    if 30 < st1.avgMs ∧ st1.level < numLevels - 1 then
      applyQualityLevel (st1.level + 1) st1
    else if st1.avgMs < 18 ∧ 0 < st1.level then
      applyQualityLevel (st1.level - 1) st1
    else st1

/-- The performance/quality prefix of `tick(t)`: compute the frame cost from
the previous timestamp, fold it into the exponential average
(`avg = avg*0.9 + frameMs*0.1`), and run the quality adjustment. -/
def tickPerf (t : ℚ) (st : SimState) : SimState :=
  let frameMs := t - st.lastT
  let st1 := { st with avgMs := st.avgMs * (9/10) + frameMs * (1/10), lastT := t }
  maybeAdjustQuality t st1

/-- Run the performance/quality logic over a sequence of frame timestamps. -/
def runFrames (st : SimState) (ts : List ℚ) : SimState :=
  ts.foldl (fun s t => tickPerf t s) st

/-- The state just before processing frame `i` of the timestamp list. -/
def stateAt (init : SimState) (ts : List ℚ) (i : ℕ) : SimState :=
  runFrames init (ts.take i)

/-- Frame `i` changes the active quality preset. -/
def levelChangeAt (init : SimState) (ts : List ℚ) (i : ℕ) : Prop :=
  (stateAt init ts (i + 1)).level ≠ (stateAt init ts i).level

instance (init : SimState) (ts : List ℚ) (i : ℕ) : Decidable (levelChangeAt init ts i) := by
  unfold levelChangeAt
  infer_instance

theorem numLevels_eq_three : numLevels = 3 := rfl

theorem applyQualityLevel_avgMs (n : ℕ) (st : SimState) :
    (applyQualityLevel n st).avgMs = st.avgMs := by
  simp only [applyQualityLevel]
  split_ifs <;> rfl

theorem applyQualityLevel_lastAdjust (n : ℕ) (st : SimState) :
    (applyQualityLevel n st).lastAdjust = st.lastAdjust := by
  simp only [applyQualityLevel]
  split_ifs <;> rfl

theorem applyQualityLevel_level (n : ℕ) (st : SimState) :
    (applyQualityLevel n st).level = max 0 (min (numLevels - 1) n) := by
  simp only [applyQualityLevel]
  split_ifs with h
  · omega
  · rfl

theorem tickPerf_avgMs (t : ℚ) (st : SimState) :
    (tickPerf t st).avgMs = st.avgMs * (9/10) + (t - st.lastT) * (1/10) := by
  simp only [tickPerf, maybeAdjustQuality]
  split_ifs <;> simp [applyQualityLevel_avgMs]

theorem tickPerf_lastAdjust (t : ℚ) (st : SimState) :
    (tickPerf t st).lastAdjust = if t - st.lastAdjust < 1200 then st.lastAdjust else t := by
  simp only [tickPerf, maybeAdjustQuality]
  split_ifs <;> simp [applyQualityLevel_lastAdjust]

/-- The level after one frame, assuming the preset index is in range. -/
theorem tickPerf_level (t : ℚ) (st : SimState) (hlev : st.level < numLevels) :
    (tickPerf t st).level =
      if t - st.lastAdjust < 1200 then st.level
      else if 30 < st.avgMs * (9/10) + (t - st.lastT) * (1/10) ∧ st.level < 2 then st.level + 1
      else if st.avgMs * (9/10) + (t - st.lastT) * (1/10) < 18 ∧ 0 < st.level then st.level - 1
      else st.level := by
  have h3 := numLevels_eq_three
  simp only [tickPerf, maybeAdjustQuality, numLevels_eq_three]
  norm_num
  split_ifs with h1 h2 h4
  · rfl
  · rw [applyQualityLevel_level]
    have hl2 := h2.2
    have := numLevels_eq_three
    omega
  · rw [applyQualityLevel_level]
    have hl0 := h4.2
    have := numLevels_eq_three
    omega
  · rfl

theorem tickPerf_level_lt (t : ℚ) (st : SimState) (hlev : st.level < numLevels) :
    (tickPerf t st).level < numLevels := by
  rw [tickPerf_level t st hlev]
  have h3 := numLevels_eq_three
  split_ifs with h1 h2 h4
  · omega
  · have := h2.2
    omega
  · omega
  · omega

theorem tickPerf_lastAdjust_le (t : ℚ) (st : SimState) :
    st.lastAdjust ≤ (tickPerf t st).lastAdjust := by
  rw [tickPerf_lastAdjust]
  split_ifs with h
  · exact le_refl _
  · linarith [not_lt.mp h]

theorem runFrames_lastAdjust_le (st : SimState) (ts : List ℚ) :
    st.lastAdjust ≤ (runFrames st ts).lastAdjust := by
  induction ts generalizing st with
  | nil => exact le_refl _
  | cons t ts ih =>
      calc st.lastAdjust ≤ (tickPerf t st).lastAdjust := tickPerf_lastAdjust_le t st
        _ ≤ (runFrames (tickPerf t st) ts).lastAdjust := ih _
        _ = (runFrames st (t :: ts)).lastAdjust := rfl

/-- If a single frame changes the preset level, the cooldown had elapsed,
the cooldown stamp moves to the frame time, and the level steps by exactly
one in the direction dictated by the updated average. -/
theorem tickPerf_level_change (t : ℚ) (st : SimState) (hlev : st.level < numLevels)
    (h : (tickPerf t st).level ≠ st.level) :
    1200 ≤ t - st.lastAdjust ∧ (tickPerf t st).lastAdjust = t ∧
      ((30 < (tickPerf t st).avgMs ∧ st.level < numLevels - 1 ∧
          (tickPerf t st).level = st.level + 1) ∨
        ((tickPerf t st).avgMs < 18 ∧ 0 < st.level ∧
          (tickPerf t st).level + 1 = st.level)) := by
  have h3 := numLevels_eq_three
  have hl := tickPerf_level t st hlev
  have ha := tickPerf_avgMs t st
  have hla := tickPerf_lastAdjust t st
  rw [hl] at h ⊢
  rw [ha, hla]
  split_ifs at h ⊢ with h1 h2 h4
  · exact absurd rfl h
  · exact ⟨not_lt.mp h1, rfl, Or.inl ⟨h2.1, by omega, rfl⟩⟩
  · exact ⟨not_lt.mp h1, rfl, Or.inr ⟨h4.1, h4.2, by omega⟩⟩
  · exact absurd rfl h

/-- If the cooldown has elapsed, the updated average exceeds 30 and the
preset is not at the lowest-quality index, the frame steps the index up by
one. -/
theorem tickPerf_steps_down (t : ℚ) (st : SimState)
    (hcd : 1200 ≤ t - st.lastAdjust)
    (havg : 30 < st.avgMs * (9/10) + (t - st.lastT) * (1/10))
    (hlev : st.level < numLevels - 1) :
    (tickPerf t st).level = st.level + 1 := by
  have h3 := numLevels_eq_three
  rw [tickPerf_level t st (by omega), if_neg (not_lt.mpr hcd), if_pos ⟨havg, by omega⟩]

/-- If the cooldown has elapsed, the updated average is below 18 and the
preset is not at the highest-quality index, the frame steps the index down
by one. -/
theorem tickPerf_steps_up (t : ℚ) (st : SimState) (hlev : st.level < numLevels)
    (hcd : 1200 ≤ t - st.lastAdjust)
    (havg : st.avgMs * (9/10) + (t - st.lastT) * (1/10) < 18)
    (h0 : 0 < st.level) :
    (tickPerf t st).level + 1 = st.level := by
  have hnup : ¬ (30 < st.avgMs * (9/10) + (t - st.lastT) * (1/10) ∧ st.level < 2) := by
    intro hc
    linarith [hc.1]
  rw [tickPerf_level t st hlev, if_neg (not_lt.mpr hcd), if_neg hnup, if_pos ⟨havg, h0⟩]
  omega

theorem runFrames_level_lt (st : SimState) (ts : List ℚ) (h : st.level < numLevels) :
    (runFrames st ts).level < numLevels := by
  induction ts generalizing st with
  | nil => exact h
  | cons t ts ih => exact ih (tickPerf t st) (tickPerf_level_lt t st h)

theorem stateAt_level_lt (init : SimState) (ts : List ℚ) (i : ℕ)
    (h : init.level < numLevels) : (stateAt init ts i).level < numLevels :=
  runFrames_level_lt init (ts.take i) h

theorem runFrames_append (st : SimState) (l1 l2 : List ℚ) :
    runFrames st (l1 ++ l2) = runFrames (runFrames st l1) l2 :=
  List.foldl_append _ _ _ _

theorem stateAt_succ (init : SimState) (ts : List ℚ) (i : ℕ) (h : i < ts.length) :
    stateAt init ts (i + 1) = tickPerf ts[i] (stateAt init ts i) := by
  unfold stateAt
  rw [List.take_succ, runFrames_append]
  have : ts[i]? = some ts[i] := List.getElem?_eq_getElem h
  rw [this]
  rfl

theorem stateAt_lastAdjust_mono (init : SimState) (ts : List ℚ) {i j : ℕ} (hij : i ≤ j) :
    (stateAt init ts i).lastAdjust ≤ (stateAt init ts j).lastAdjust := by
  have hsplit : ts.take j = ts.take i ++ (ts.take j).drop i := by
    have h1 : (ts.take j).take i = ts.take i := by
      rw [List.take_take, min_eq_left hij]
    conv_lhs => rw [← List.take_append_drop i (ts.take j)]
    rw [h1]
  unfold stateAt
  rw [hsplit, runFrames_append]
  exact runFrames_lastAdjust_le _ _

/-- C1: quality preset changes are rate-limited and stepwise.  For any run
of the frame loop: two frames `i < j` that both change the preset are at
least 1200ms apart; a change at frame `j` moves the preset index by exactly
one notch, up (toward lower quality) exactly when the updated smoothed
average exceeds 30ms and the preset was not at the lowest-quality index,
and down exactly when the average is below 18ms and the preset was not at
the highest-quality index; and conversely, at any frame `k` whose cooldown
has elapsed, those threshold conditions force the corresponding single-notch
step. -/
theorem quality_adjust_rate_limited_and_stepwise
    (init : SimState) (ts : List ℚ) (i j k : ℕ)
    (hinit : init.level < numLevels)
    (hij : i < j) (hj : j < ts.length) (hk : k < ts.length)
    (hci : levelChangeAt init ts i) (hcj : levelChangeAt init ts j)
    (hkcd : 1200 ≤ ts[k] - (stateAt init ts k).lastAdjust) :
    1200 ≤ ts[j] - ts[i] ∧
      ((30 < (stateAt init ts (j + 1)).avgMs ∧
          (stateAt init ts j).level < numLevels - 1 ∧
          (stateAt init ts (j + 1)).level = (stateAt init ts j).level + 1) ∨
        ((stateAt init ts (j + 1)).avgMs < 18 ∧
          0 < (stateAt init ts j).level ∧
          (stateAt init ts (j + 1)).level + 1 = (stateAt init ts j).level)) ∧
      (30 < (stateAt init ts (k + 1)).avgMs →
        (stateAt init ts k).level < numLevels - 1 →
        (stateAt init ts (k + 1)).level = (stateAt init ts k).level + 1) ∧
      ((stateAt init ts (k + 1)).avgMs < 18 →
        0 < (stateAt init ts k).level →
        (stateAt init ts (k + 1)).level + 1 = (stateAt init ts k).level) := by
  have hi : i < ts.length := lt_trans hij hj
  have hsi := stateAt_succ init ts i hi
  have hsj := stateAt_succ init ts j hj
  have hsk := stateAt_succ init ts k hk
  have hlevi : (stateAt init ts i).level < numLevels := stateAt_level_lt init ts i hinit
  have hlevj : (stateAt init ts j).level < numLevels := stateAt_level_lt init ts j hinit
  have hlevk : (stateAt init ts k).level < numLevels := stateAt_level_lt init ts k hinit
  have hchi : (tickPerf ts[i] (stateAt init ts i)).level ≠ (stateAt init ts i).level := by
    rw [← hsi]; exact hci
  have hchj : (tickPerf ts[j] (stateAt init ts j)).level ≠ (stateAt init ts j).level := by
    rw [← hsj]; exact hcj
  obtain ⟨hcdi, hlai, _⟩ := tickPerf_level_change ts[i] (stateAt init ts i) hlevi hchi
  obtain ⟨hcdj, hlaj, hdirj⟩ := tickPerf_level_change ts[j] (stateAt init ts j) hlevj hchj
  refine ⟨?_, ?_, ?_, ?_⟩
  · have hmono : (stateAt init ts (i + 1)).lastAdjust ≤ (stateAt init ts j).lastAdjust :=
      stateAt_lastAdjust_mono init ts (by omega)
    rw [hsi, hlai] at hmono
    linarith
  · rw [hsj]
    exact hdirj
  · intro havg hlev
    rw [hsk] at havg ⊢
    rw [tickPerf_avgMs] at havg
    exact tickPerf_steps_down ts[k] (stateAt init ts k) hkcd havg hlev
  · intro havg hlev
    rw [hsk] at havg ⊢
    rw [tickPerf_avgMs] at havg
    exact tickPerf_steps_up ts[k] (stateAt init ts k) hlevk hkcd havg hlev

/-- A concrete overloaded run: high frame cost, frames at 1300ms and
2600ms, both stepping the preset toward lower quality. -/
def c1Init : SimState := { level := 0, lastAdjust := 0, avgMs := 100, lastT := 0 }

/-- The frame timestamps of the concrete run used as the C1 witness. -/
def c1Ts : List ℚ := [1300, 2600]

theorem c1_state0 : stateAt c1Init c1Ts 0 = c1Init := rfl

theorem c1_state1 :
    stateAt c1Init c1Ts 1 = { level := 1, lastAdjust := 1300, avgMs := 220, lastT := 1300 } := by
  norm_num [stateAt, runFrames, c1Ts, c1Init, tickPerf, maybeAdjustQuality, applyQualityLevel,
    numLevels, qualityLevels]

theorem c1_state2 :
    stateAt c1Init c1Ts 2 = { level := 2, lastAdjust := 2600, avgMs := 328, lastT := 2600 } := by
  norm_num [stateAt, runFrames, c1Ts, c1Init, tickPerf, maybeAdjustQuality, applyQualityLevel,
    numLevels, qualityLevels]

/-- Witness for C1 on the concrete two-frame run: the two changes are
1300ms apart and both are single downward (lower-quality) notches. -/
theorem quality_adjust_rate_limited_witness :
    1200 ≤ (2600 : ℚ) - 1300 ∧
      ((30 < (stateAt c1Init c1Ts 2).avgMs ∧
          (stateAt c1Init c1Ts 1).level < numLevels - 1 ∧
          (stateAt c1Init c1Ts 2).level = (stateAt c1Init c1Ts 1).level + 1) ∨
        ((stateAt c1Init c1Ts 2).avgMs < 18 ∧
          0 < (stateAt c1Init c1Ts 1).level ∧
          (stateAt c1Init c1Ts 2).level + 1 = (stateAt c1Init c1Ts 1).level)) ∧
      (30 < (stateAt c1Init c1Ts 2).avgMs →
        (stateAt c1Init c1Ts 1).level < numLevels - 1 →
        (stateAt c1Init c1Ts 2).level = (stateAt c1Init c1Ts 1).level + 1) ∧
      ((stateAt c1Init c1Ts 2).avgMs < 18 →
        0 < (stateAt c1Init c1Ts 1).level →
        (stateAt c1Init c1Ts 2).level + 1 = (stateAt c1Init c1Ts 1).level) :=
  quality_adjust_rate_limited_and_stepwise c1Init c1Ts 0 1 1
    (by norm_num [c1Init, numLevels, qualityLevels]) (by norm_num) (by norm_num [c1Ts]) (by norm_num [c1Ts])
    (by show (stateAt c1Init c1Ts 1).level ≠ (stateAt c1Init c1Ts 0).level
        rw [c1_state1, c1_state0]
        norm_num [c1Init])
    (by show (stateAt c1Init c1Ts 2).level ≠ (stateAt c1Init c1Ts 1).level
        rw [c1_state2, c1_state1]
        norm_num)
    (by rw [c1_state1]
        norm_num [c1Ts])

/-- The immutable per-petal shape descriptor created in `makePetals`. -/
structure PetalShape where
  wScale : ℚ
  hScale : ℚ
  asym : ℚ
  notch : ℚ
  tip : ℚ
  lobe : ℚ
  curl : ℚ
  vein : ℚ
  gradX : ℚ
  gradY : ℚ
  edge : ℚ
  detail : ℚ
  veinCount : ℕ
deriving DecidableEq

/-- A cached sprite bitmap, modelled by the inputs it was rasterized from
(the bitmap contents are a pure function of these). -/
structure Sprite where
  dim : ℤ
  blurPx : ℚ
  colorA : ColorStr
  colorB : ColorStr
  size : ℚ
  shape : PetalShape
  boost : ℚ
deriving DecidableEq

/-- One petal particle, with the fields of the script's `Petal` typedef. -/
structure Petal where
  x : ℚ
  y : ℚ
  vx : ℚ
  vy : ℚ
  size : ℚ
  rot : ℚ
  rotSpeed : ℚ
  swayPhase : ℚ
  swayAmp : ℚ
  swaySpeed : ℚ
  flutterPhase : ℚ
  flutterSpeed : ℚ
  flutterAmp : ℚ
  baseA : RGB
  baseB : RGB
  colorA : ColorStr
  colorB : ColorStr
  alphaSeed : ℚ
  alpha : ℚ
  shape : PetalShape
  sprite : Option Sprite
  spriteSize : ℤ
deriving DecidableEq

/-- The per-frame motion scale of `tick`:
`(state.reducedMotion ? 0.08 : 1) * config.motion`. -/
def motionScaleOf (reducedMotion : Bool) : ℚ :=
  (if reducedMotion then 8/100 else 1) * config.motion

/-- The delta-time clamp of `tick`: `dt = Math.min(0.04, frameMs / 1000)`. -/
def clampDt (frameMs : ℚ) : ℚ := min (4/100) (frameMs / 1000)

/-- The per-petal physics update and respawn check of `tick` (the wind term,
which the script computes once per frame from a sine of the timestamp, is a
parameter; `r1`, `r2` are the two respawn random draws). -/
def tickPetal (wv hv dt motionScale wind r1 r2 : ℚ) (p : Petal) : Petal :=
  let y1 := p.y + p.vy * dt * motionScale
  let rot1 := p.rot + p.rotSpeed * dt * motionScale
  let swayPhase1 := p.swayPhase + p.swaySpeed * dt * motionScale
  let flutterPhase1 := p.flutterPhase + p.flutterSpeed * dt * motionScale
  let x1 := p.x + (p.vx + wind * config.windScale) * dt * 60 * motionScale
  if y1 > hv + p.size * 2 ∨ x1 > wv + p.size * 4 then
    { p with
        rot := rot1
        swayPhase := swayPhase1
        flutterPhase := flutterPhase1
        y := randQ (-hv * (1/4)) (-p.size * (3/2)) r1
        x := randQ (-wv * (1/4)) (wv * (35/100)) r2 }
  else
    { p with
        rot := rot1
        swayPhase := swayPhase1
        flutterPhase := flutterPhase1
        y := y1
        x := x1 }

/-- A concrete petal used by the witness instantiations. -/
def testShape : PetalShape :=
  { wScale := 1, hScale := 1, asym := 0, notch := 0, tip := 0, lobe := 0
    curl := 0, vein := 0, gradX := 0, gradY := 0, edge := 1/2, detail := 1/2
    veinCount := 2 }

/-- A concrete petal used by the witness instantiations. -/
def testPetal : Petal :=
  { x := 100, y := 50, vx := 1, vy := 30, size := 24, rot := 0, rotSpeed := 1/2
    swayPhase := 0, swayAmp := 20, swaySpeed := 1
    flutterPhase := 0, flutterSpeed := 2, flutterAmp := 1/10
    baseA := { r := 255, g := 230, b := 240 }, baseB := { r := 255, g := 255, b := 255 }
    colorA := { r := 255, g := 230, b := 240, a := 1 }
    colorB := { r := 255, g := 255, b := 255, a := 1 }
    alphaSeed := 1/2, alpha := 63/100, shape := testShape
    sprite := none, spriteSize := 0 }

/-- C2: after one simulation step (physics update then respawn check) the
petal's coordinates satisfy `y ≤ viewportHeight + 2*size` and
`x ≤ viewportWidth + 4*size`; its size is untouched, and if the physics
update crossed either bound the petal is relocated within the same step to
the random respawn position, which satisfies both bounds. -/
theorem tick_keeps_petals_within_respawn_bounds
    (wv hv dt ms wind r1 r2 : ℚ) (p : Petal)
    (hw : 0 ≤ wv) (hh : 0 ≤ hv) (hs : 0 ≤ p.size)
    (hr1a : 0 ≤ r1) (hr1b : r1 ≤ 1) (hr2a : 0 ≤ r2) (hr2b : r2 ≤ 1) :
    (tickPetal wv hv dt ms wind r1 r2 p).size = p.size ∧
    (tickPetal wv hv dt ms wind r1 r2 p).y ≤ hv + 2 * p.size ∧
    (tickPetal wv hv dt ms wind r1 r2 p).x ≤ wv + 4 * p.size ∧
    (p.y + p.vy * dt * ms > hv + p.size * 2 ∨
        p.x + (p.vx + wind * config.windScale) * dt * 60 * ms > wv + p.size * 4 →
      (tickPetal wv hv dt ms wind r1 r2 p).y = randQ (-hv * (1/4)) (-p.size * (3/2)) r1 ∧
      (tickPetal wv hv dt ms wind r1 r2 p).x = randQ (-wv * (1/4)) (wv * (35/100)) r2) := by
  simp only [tickPetal]
  split_ifs with hcross
  · refine ⟨rfl, ?_, ?_, fun _ => ⟨rfl, rfl⟩⟩
    · simp only [randQ]
      nlinarith [mul_nonneg hr1a hs, mul_nonneg hr1a hh,
        mul_nonneg (sub_nonneg.mpr hr1b) hh, mul_nonneg (sub_nonneg.mpr hr1b) hs]
    · simp only [randQ]
      nlinarith [mul_nonneg hr2a hs, mul_nonneg hr2a hw,
        mul_nonneg (sub_nonneg.mpr hr2b) hw, mul_nonneg (sub_nonneg.mpr hr2b) hs]
  · rw [not_or] at hcross
    obtain ⟨h1, h2⟩ := hcross
    rw [not_lt] at h1 h2
    refine ⟨rfl, ?_, ?_, fun hc => absurd hc (by rw [not_or, not_lt, not_lt]; exact ⟨h1, h2⟩)⟩
    · show p.y + p.vy * dt * ms ≤ hv + 2 * p.size
      linarith
    · show p.x + (p.vx + wind * config.windScale) * dt * 60 * ms ≤ wv + 4 * p.size
      linarith

/-- Witness for C2 at a concrete petal and step. -/
theorem tick_respawn_bounds_witness :
    (tickPetal 1000 800 (1/25) (4/10) 0 (1/2) (1/2) testPetal).size = testPetal.size ∧
    (tickPetal 1000 800 (1/25) (4/10) 0 (1/2) (1/2) testPetal).y ≤ 800 + 2 * testPetal.size ∧
    (tickPetal 1000 800 (1/25) (4/10) 0 (1/2) (1/2) testPetal).x ≤ 1000 + 4 * testPetal.size ∧
    (testPetal.y + testPetal.vy * (1/25) * (4/10) > 800 + testPetal.size * 2 ∨
        testPetal.x + (testPetal.vx + 0 * config.windScale) * (1/25) * 60 * (4/10) >
          1000 + testPetal.size * 4 →
      (tickPetal 1000 800 (1/25) (4/10) 0 (1/2) (1/2) testPetal).y =
        randQ (-800 * (1/4)) (-testPetal.size * (3/2)) (1/2) ∧
      (tickPetal 1000 800 (1/25) (4/10) 0 (1/2) (1/2) testPetal).x =
        randQ (-1000 * (1/4)) (1000 * (35/100)) (1/2)) :=
  tick_keeps_petals_within_respawn_bounds 1000 800 (1/25) (4/10) 0 (1/2) (1/2) testPetal
    (by norm_num) (by norm_num) (by norm_num [testPetal]) (by norm_num) (by norm_num)
    (by norm_num) (by norm_num)

/-- C4 counterexample: with reduced motion active and the global motion
multiplier `0.4`, the effective motion scale is `0.032` and a petal with
rotation speed `0.5` advances its rotation by `0.00064` rad over a maximally
clamped `0.04`s step, not by `0.0016` rad as the claim computes. -/
theorem rotation_advance_counterexample :
    motionScaleOf true = 32/1000 ∧
    clampDt 40 = 4/100 ∧
    testPetal.rotSpeed = 1/2 ∧
    (tickPetal 1000 800 (clampDt 40) (motionScaleOf true) 0 0 0 testPetal).rot =
      testPetal.rot + 64/100000 ∧
    testPetal.rot + (64/100000 : ℚ) ≠ testPetal.rot + 16/10000 := by
  refine ⟨by norm_num [motionScaleOf, config], by norm_num [clampDt], rfl, ?_, by norm_num⟩
  simp only [tickPetal, clampDt, motionScaleOf, config, testPetal, testShape, randQ]
  norm_num

/-- C4 amended: with reduced motion active and the global motion multiplier
`0.4`, the effective motion scale is `0.08 * 0.4 = 0.032`, and any petal
with rotation speed `0.5` rad/s advances its rotation by `0.00064` rad over
a single maximally clamped `0.04`s step. -/
theorem rotation_advance_amended (wv hv wind r1 r2 : ℚ) (p : Petal)
    (hrot : p.rotSpeed = 1/2) :
    motionScaleOf true = 32/1000 ∧
    (tickPetal wv hv (clampDt 40) (motionScaleOf true) wind r1 r2 p).rot = p.rot + 64/100000 := by
  refine ⟨by norm_num [motionScaleOf, config], ?_⟩
  simp only [tickPetal, clampDt, motionScaleOf, config]
  split_ifs <;> norm_num [hrot]

/-- Witness for the amended C4 at a concrete petal. -/
theorem rotation_advance_amended_witness :
    motionScaleOf true = 32/1000 ∧
    (tickPetal 1000 800 (clampDt 40) (motionScaleOf true) 0 0 0 testPetal).rot =
      testPetal.rot + 64/100000 :=
  rotation_advance_amended 1000 800 0 0 0 testPetal rfl

/-- One path-construction command issued on the 2D context. -/
inductive PathSeg where
  | move (x y : ℚ)
  | curve (c1x c1y c2x c2y x y : ℚ)
  | quad (cx cy x y : ℚ)
  | closePath
deriving DecidableEq

/-- The closed-silhouette path block of `drawPetalShape` (the
`beginPath`..`closePath` sequence), transcribed with all the geometric
precomputations of the function.  The function receives the same arguments
as `drawPetalShape` (minus the context); the fill colors and the visibility
boost are only used by the later gradient/stroke passes, not by the path. -/
def drawPetalShapeSilhouette (size : ℚ) (fillA fillB : ColorStr) (shape : PetalShape)
    (visibilityBoost : ℚ) : List PathSeg :=
  let s := size
  let w := s * (94/100) * shape.wScale
  let h := s * (102/100) * shape.hScale
  let leftMul := 1 + shape.asym
  let rightMul := 1 - shape.asym
  let lx := fun v => -w * v * leftMul
  let rx := fun v => w * v * rightMul
  let notchY := -h * clampQ (6/10 + shape.notch) (55/100) (72/100)
  let tipY := -h * clampQ (72/100 + shape.tip * (12/100)) (64/100) (82/100)
  let tipHalfX := w * clampQ (16/100 + shape.edge * (8/100)) (1/10) (26/100)
  let lobeY := -h * clampQ (62/100 + shape.lobe) (54/100) (72/100)
  let waistY := -h * clampQ (2/100 + shape.curl * (7/100)) (-(7/100)) (7/100)
  let bottomX := w * clampQ (8/100 + shape.curl * (5/100)) (5/100) (15/100)
  let bottomY := h * clampQ (44/100 + shape.tip * (2/10)) (38/100) (54/100)
  let capDepth := h * clampQ (5/100 + shape.tip * (6/100)) (2/100) (8/100)
  let lobeC1x := clampQ (38/100 + shape.curl * (6/100)) (3/10) (46/100)
  let lobeC2x := clampQ (6/10 + shape.curl * (5/100)) (48/100) (7/10)
  let waistX := clampQ (42/100 + shape.curl * (4/100)) (32/100) (52/100)
  let sideC1x := clampQ (18/100 + shape.curl * (7/100)) (1/10) (28/100)
  let sideC2x := clampQ (1/10 + shape.curl * (5/100)) (6/100) (2/10)
  let tipT := clampQ (tipHalfX / w) (8/100) (35/100)
  let notchCurve := h * clampQ (4/100 + shape.edge * (5/100)) (2/100) (9/100)
  [ PathSeg.move (lx tipT) tipY
  , PathSeg.curve (lx lobeC1x) lobeY (lx lobeC2x) (-h * (16/100)) (lx waistX) waistY
  , PathSeg.curve (lx sideC1x) (h * (22/100)) (lx sideC2x) (h * (38/100)) (-bottomX) bottomY
  , PathSeg.quad 0 (bottomY + capDepth) bottomX bottomY
  , PathSeg.curve (rx sideC2x) (h * (38/100)) (rx sideC1x) (h * (22/100)) (rx waistX) waistY
  , PathSeg.curve (rx lobeC2x) (-h * (16/100)) (rx lobeC1x) lobeY (rx tipT) tipY
  , PathSeg.curve (rx (tipT * (65/100))) (tipY + notchCurve) (rx (tipT * (32/100)))
      (notchY + notchCurve * (6/10)) 0 notchY
  , PathSeg.curve (lx (tipT * (32/100))) (notchY + notchCurve * (6/10)) (lx (tipT * (65/100)))
      (tipY + notchCurve) (lx tipT) tipY
  , PathSeg.closePath ]

/-- C9: the silhouette path is a pure function of the shape descriptor and
the size: two invocations with identical descriptor and size produce the
identical segment sequence regardless of the fill colors and the visibility
boost. -/
theorem silhouette_pure_in_descriptor_and_size
    (size : ℚ) (shape : PetalShape) (fA fB fA2 fB2 : ColorStr) (b b2 : ℚ) :
    drawPetalShapeSilhouette size fA fB shape b =
      drawPetalShapeSilhouette size fA2 fB2 shape b2 := rfl

/-- `palette.target.fillA`. -/
def paletteTargetFillA : RGB := { r := 245, g := 165, b := 195 }

/-- `palette.target.fillB`. -/
def paletteTargetFillB : RGB := { r := 255, g := 225, b := 238 }

/-- `getPetalColors(baseA, baseB)`: blend each base color toward its
high-contrast target by the clamped visibility boost. -/
def getPetalColors (visibilityBoost : ℚ) (baseA baseB : RGB) : ColorStr × ColorStr :=
  let boost := clampQ visibilityBoost 0 1
  (rgba (mixRgb baseA paletteTargetFillA boost) 1, rgba (mixRgb baseB paletteTargetFillB boost) 1)

/-- `getSpriteDim(p, blurPx) = Math.max(24, Math.ceil(p.size * 3.2 + blurPx * 4))`. -/
def getSpriteDim (size blurPx : ℚ) : ℤ := max 24 ⌈size * (32/10) + blurPx * 4⌉

/-- `renderPetalSprite(p)` on the offscreen-capable path: the rasterized
bitmap is modelled by the tuple of inputs it is drawn from. -/
def renderPetalSprite (visibilityBoost blurPx : ℚ) (p : Petal) : Petal :=
  let dim := getSpriteDim p.size blurPx
  { p with
      sprite := some
        { dim := dim
          blurPx := blurPx
          colorA := p.colorA
          colorB := p.colorB
          size := p.size
          shape := p.shape
          boost := visibilityBoost }
      spriteSize := dim }

/-- `refreshPetalVisuals()`: recompute every petal's display colors and
alpha from the boost, then re-rasterize its sprite. -/
def refreshPetalVisuals (visibilityBoost blurPx : ℚ) (ps : List Petal) : List Petal :=
  ps.map fun p =>
    let colors := getPetalColors visibilityBoost p.baseA p.baseB
    renderPetalSprite visibilityBoost blurPx
      { p with
          colorA := colors.1
          colorB := colors.2
          alpha := getPetalAlpha visibilityBoost p.alphaSeed }

/-- The shared state touched by `updateVisibilityBoost`: the stored boost
and the petal collection. -/
structure FieldState where
  visibilityBoost : ℚ
  petals : List Petal
deriving DecidableEq

/-- `updateVisibilityBoost()`: recompute the boost from the preference
signals; if it equals the stored boost return with no mutation, otherwise
store it and refresh every petal. -/
def updateVisibilityBoost (more less reduceTransparency forcedColors gamutP3 : Option Bool)
    (blurPx : ℚ) (st : FieldState) : FieldState :=
  let boost := updateVisibilityBoostValue more less reduceTransparency forcedColors gamutP3
  if boost = st.visibilityBoost then st
  else { visibilityBoost := boost, petals := refreshPetalVisuals boost blurPx st.petals }

/-- C10: when the recomputed clamped boost equals the stored boost, the
boost-update handler leaves the whole shared state (stored boost and every
petal's colors, alpha and cached sprite) unchanged. -/
theorem visibilityBoost_noop_when_unchanged
    (more less reduceTransparency forcedColors gamutP3 : Option Bool) (blurPx : ℚ)
    (st : FieldState)
    (h : updateVisibilityBoostValue more less reduceTransparency forcedColors gamutP3 =
      st.visibilityBoost) :
    updateVisibilityBoost more less reduceTransparency forcedColors gamutP3 blurPx st = st := by
  simp only [updateVisibilityBoost, if_pos h]

/-- Witness for C10: all signals unavailable, stored boost `0`. -/
theorem visibilityBoost_noop_witness :
    updateVisibilityBoost none none none none none (7/10)
        { visibilityBoost := 0, petals := [testPetal] } =
      { visibilityBoost := 0, petals := [testPetal] } :=
  visibilityBoost_noop_when_unchanged none none none none none (7/10)
    { visibilityBoost := 0, petals := [testPetal] }
    (by norm_num [updateVisibilityBoostValue, clampQ])

/-- The vein-count sampling expression of `makePetals`:
`Math.random() < 0.45 ? 3 : Math.random() < 0.7 ? 2 : 1`, with the two
uniform draws as parameters. -/
def veinCountSample (u1 u2 : ℚ) : ℕ :=
  if u1 < 45/100 then 3 else if u2 < 7/10 then 2 else 1

/-- C6 counterexample: over the unit square of draws, the preimage of
outcome `2` is the rectangle `[0.45, 1) x [0, 0.7)`, whose uniform measure
(the product of its side lengths) is `0.385`, not the claimed `0.25`. -/
theorem veinCount_probability_counterexample :
    {q : ℚ × ℚ | q ∈ Set.Ico (0:ℚ) 1 ×ˢ Set.Ico (0:ℚ) 1 ∧ veinCountSample q.1 q.2 = 2} =
      Set.Ico (45/100 : ℚ) 1 ×ˢ Set.Ico (0:ℚ) (7/10) ∧
    ((1:ℚ) - 45/100) * (7/10 - 0) = 385/1000 ∧
    (385/1000 : ℚ) ≠ 25/100 := by
  refine ⟨?_, by norm_num, by norm_num⟩
  ext q
  simp only [Set.mem_setOf_eq, Set.mem_prod, Set.mem_Ico, veinCountSample]
  constructor
  · rintro ⟨⟨⟨h01, h1⟩, h02, h2⟩, hv⟩
    split_ifs at hv with ha hb
    · omega
    · exact ⟨⟨not_lt.mp ha, h1⟩, h02, hb⟩
    · omega
  · rintro ⟨⟨ha, h1⟩, h02, hb⟩
    refine ⟨⟨⟨by linarith, h1⟩, h02, by linarith⟩, ?_⟩
    rw [if_neg (not_lt.mpr ha), if_pos hb]

/-- C6 amended: the vein count takes value 3 with probability 45%, value 2
with probability 38.5% and value 1 with probability 16.5%: the preimages of
the three outcomes inside the unit square of draws are rectangles whose
uniform measures (products of side lengths) are those weights. -/
theorem veinCount_distribution :
    ({q : ℚ × ℚ | q ∈ Set.Ico (0:ℚ) 1 ×ˢ Set.Ico (0:ℚ) 1 ∧ veinCountSample q.1 q.2 = 3} =
        Set.Ico (0:ℚ) (45/100) ×ˢ Set.Ico (0:ℚ) 1 ∧
      {q : ℚ × ℚ | q ∈ Set.Ico (0:ℚ) 1 ×ˢ Set.Ico (0:ℚ) 1 ∧ veinCountSample q.1 q.2 = 2} =
        Set.Ico (45/100 : ℚ) 1 ×ˢ Set.Ico (0:ℚ) (7/10) ∧
      {q : ℚ × ℚ | q ∈ Set.Ico (0:ℚ) 1 ×ˢ Set.Ico (0:ℚ) 1 ∧ veinCountSample q.1 q.2 = 1} =
        Set.Ico (45/100 : ℚ) 1 ×ˢ Set.Ico (7/10 : ℚ) 1) ∧
    ((45/100 : ℚ) - 0) * (1 - 0) = 45/100 ∧
    ((1:ℚ) - 45/100) * (7/10 - 0) = 385/1000 ∧
    ((1:ℚ) - 45/100) * (1 - 7/10) = 165/1000 := by
  refine ⟨⟨?_, ?_, ?_⟩, by norm_num, by norm_num, by norm_num⟩
  · ext q
    simp only [Set.mem_setOf_eq, Set.mem_prod, Set.mem_Ico, veinCountSample]
    constructor
    · rintro ⟨⟨⟨h01, h1⟩, h02, h2⟩, hv⟩
      split_ifs at hv with ha hb
      · exact ⟨⟨h01, ha⟩, h02, h2⟩
      · omega
      · omega
    · rintro ⟨⟨h01, ha⟩, h02, h2⟩
      exact ⟨⟨⟨h01, by linarith⟩, h02, h2⟩, if_pos ha⟩
  · ext q
    simp only [Set.mem_setOf_eq, Set.mem_prod, Set.mem_Ico, veinCountSample]
    constructor
    · rintro ⟨⟨⟨h01, h1⟩, h02, h2⟩, hv⟩
      split_ifs at hv with ha hb
      · omega
      · exact ⟨⟨not_lt.mp ha, h1⟩, h02, hb⟩
      · omega
    · rintro ⟨⟨ha, h1⟩, h02, hb⟩
      refine ⟨⟨⟨by linarith, h1⟩, h02, by linarith⟩, ?_⟩
      rw [if_neg (not_lt.mpr ha), if_pos hb]
  · ext q
    simp only [Set.mem_setOf_eq, Set.mem_prod, Set.mem_Ico, veinCountSample]
    constructor
    · rintro ⟨⟨⟨h01, h1⟩, h02, h2⟩, hv⟩
      split_ifs at hv with ha hb
      · omega
      · omega
      · exact ⟨⟨not_lt.mp ha, h1⟩, not_lt.mp hb, h2⟩
    · rintro ⟨⟨ha, h1⟩, hb, h2⟩
      refine ⟨⟨⟨by linarith, h1⟩, by linarith, h2⟩, ?_⟩
      rw [if_neg (not_lt.mpr ha), if_neg (not_lt.mpr hb)]

/-- The far-off-x relocation of `resize()`: a petal whose x lies outside
`[-0.5*w, 1.5*w]` is pulled back to a random position in the entry band. -/
def reloc1 (wv r : ℚ) (p : Petal) : Petal :=
  if p.x < -wv * (1/2) ∨ p.x > wv * (3/2) then
    { p with x := randQ (-wv * (1/4)) (wv * (35/100)) r }
  else p

/-- The relocation loop of `resize()` over the whole collection, with the
random draw for petal `i` given by `rr i`. -/
def relocPass (wv : ℚ) (rr : ℕ → ℚ) : ℕ → List Petal → List Petal
  | _, [] => []
  | i, p :: ps => reloc1 wv (rr i) p :: relocPass wv rr (i + 1) ps

/-- The petal-preserving path of `resize()` (reached when `preservePetals`
is set, petals exist and `prevW > 0`): reconcile the collection length with
the target (append `makePetals(target - length)` results, abstracted as the
`newPetals` parameter, or truncate), rescale every x by `w / prevW` when the
width changed, relocate far-off petals, and re-render sprites only when a
numeric `prevBlurPx` was passed and the blur changed. -/
def resizePreserve (prevW wv : ℚ) (target : ℕ) (newPetals : List Petal) (rr : ℕ → ℚ)
    (prevBlurPx : Option ℚ) (nextBlurPx boost : ℚ) (ps : List Petal) : List Petal :=
  let ps1 := if ps.length < target then ps ++ newPetals.take (target - ps.length)
    else ps.take target
  let ps2 := if 0 < prevW ∧ wv ≠ prevW then
      ps1.map (fun p => { p with x := p.x * (wv / prevW) })
    else ps1
  let ps3 := relocPass wv rr 0 ps2
  match prevBlurPx with
  | some pb => if nextBlurPx ≠ pb then ps3.map (renderPetalSprite boost nextBlurPx) else ps3
  | none => ps3

/-- The x-rescale factor applied by the preserving resize. -/
def resizeScaleX (prevW wv : ℚ) : ℚ :=
  if 0 < prevW ∧ wv ≠ prevW then wv / prevW else 1

/-- Two petals agree on every field except possibly `x`. -/
def samePetalExceptX (p q : Petal) : Prop :=
  p.y = q.y ∧ p.vx = q.vx ∧ p.vy = q.vy ∧ p.size = q.size ∧ p.rot = q.rot ∧
  p.rotSpeed = q.rotSpeed ∧ p.swayPhase = q.swayPhase ∧ p.swayAmp = q.swayAmp ∧
  p.swaySpeed = q.swaySpeed ∧ p.flutterPhase = q.flutterPhase ∧
  p.flutterSpeed = q.flutterSpeed ∧ p.flutterAmp = q.flutterAmp ∧
  p.baseA = q.baseA ∧ p.baseB = q.baseB ∧ p.colorA = q.colorA ∧ p.colorB = q.colorB ∧
  p.alphaSeed = q.alphaSeed ∧ p.alpha = q.alpha ∧ p.shape = q.shape ∧
  p.sprite = q.sprite ∧ p.spriteSize = q.spriteSize

theorem relocPass_length (wv : ℚ) (rr : ℕ → ℚ) (n : ℕ) (ps : List Petal) :
    (relocPass wv rr n ps).length = ps.length := by
  induction ps generalizing n with
  | nil => rfl
  | cons p ps ih => simp [relocPass, ih]

theorem relocPass_getD (wv : ℚ) (rr : ℕ → ℚ) (n : ℕ) (ps : List Petal) (i : ℕ) (dp : Petal)
    (h : i < ps.length) :
    (relocPass wv rr n ps).getD i dp = reloc1 wv (rr (n + i)) (ps.getD i dp) := by
  induction ps generalizing n i with
  | nil => simp at h
  | cons p ps ih =>
      cases i with
      | zero => simp [relocPass]
      | succ i =>
          have h2 : i < ps.length := by simpa using h
          have hidx : n + 1 + i = n + (i + 1) := by omega
          simp only [relocPass, List.getD_cons_succ]
          rw [ih (n + 1) i h2, hidx]

theorem map_getD (f : Petal → Petal) (ps : List Petal) (i : ℕ) (dp : Petal)
    (h : i < ps.length) :
    (ps.map f).getD i dp = f (ps.getD i dp) := by
  have h2 : i < (ps.map f).length := by simpa using h
  rw [List.getD_eq_getElem _ _ h2, List.getD_eq_getElem _ _ h, List.getElem_map]

/-- C8 counterexample: a preserving resize from width 100 to width 50 with
an unchanged target count moves a petal at `x = 400` not to the rescaled
`400 * (50/100) = 200` but relocates it (its rescaled x lies outside
`[-25, 75]`) to the entry band, here to `-12.5`. -/
theorem resize_preserve_counterexample :
    (resizePreserve 100 50 1 [] (fun _ => 0) none (7/10) 0
        [{ testPetal with x := 400 }]).map Petal.x = [-(25/2)] ∧
      (-(25/2) : ℚ) ≠ 400 * (50 / 100) := by
  constructor
  · norm_num [resizePreserve, relocPass, reloc1, randQ, testPetal, testShape]
  · norm_num

/-- C8 amended: a preserving resize (window-resize path, no blur change)
whose target equals the current count keeps the collection length, keeps
every petal's identity, shape descriptor and all fields other than `x`
unchanged, and changes `x` only to the width-ratio rescale of the old `x` -
unless that rescaled value lies outside the band `[-0.5*w, 1.5*w]`, in
which case `x` is relocated to the random entry-band position drawn for
that petal's index. -/
theorem resize_preserve_amended (prevW wv nextBlurPx boost : ℚ) (rr : ℕ → ℚ)
    (newPs ps : List Petal) (dp : Petal) (i : ℕ) (hi : i < ps.length) :
    (resizePreserve prevW wv ps.length newPs rr none nextBlurPx boost ps).length = ps.length ∧
    samePetalExceptX
      ((resizePreserve prevW wv ps.length newPs rr none nextBlurPx boost ps).getD i dp)
      (ps.getD i dp) ∧
    (((resizePreserve prevW wv ps.length newPs rr none nextBlurPx boost ps).getD i dp).x =
        (ps.getD i dp).x * resizeScaleX prevW wv ∨
      (((ps.getD i dp).x * resizeScaleX prevW wv < -wv * (1/2) ∨
          (ps.getD i dp).x * resizeScaleX prevW wv > wv * (3/2)) ∧
        ((resizePreserve prevW wv ps.length newPs rr none nextBlurPx boost ps).getD i dp).x =
          randQ (-wv * (1/4)) (wv * (35/100)) (rr i))) := by
  have hps1 : (if ps.length < ps.length then ps ++ newPs.take (ps.length - ps.length)
      else ps.take ps.length) = ps := by
    rw [if_neg (lt_irrefl _), List.take_length]
  by_cases hc : 0 < prevW ∧ wv ≠ prevW
  · have hres : resizePreserve prevW wv ps.length newPs rr none nextBlurPx boost ps =
        relocPass wv rr 0 (ps.map (fun p => { p with x := p.x * (wv / prevW) })) := by
      simp only [resizePreserve, hps1, if_pos hc]
    have hsx : resizeScaleX prevW wv = wv / prevW := if_pos hc
    have hlen : i < (ps.map (fun p => { p with x := p.x * (wv / prevW) })).length := by
      simpa using hi
    rw [hres, hsx]
    refine ⟨by rw [relocPass_length]; simp, ?_⟩
    rw [relocPass_getD wv rr 0 _ i dp hlen, Nat.zero_add,
      map_getD (fun p => { p with x := p.x * (wv / prevW) }) ps i dp hi]
    set p := ps.getD i dp with hp
    simp only [reloc1]
    split_ifs with hband
    · constructor
      · simp [samePetalExceptX]
      · right
        exact ⟨hband, rfl⟩
    · constructor
      · simp [samePetalExceptX]
      · left
        rfl
  · have hres : resizePreserve prevW wv ps.length newPs rr none nextBlurPx boost ps =
        relocPass wv rr 0 ps := by
      simp only [resizePreserve, hps1, if_neg hc]
    have hsx : resizeScaleX prevW wv = 1 := if_neg hc
    rw [hres, hsx]
    refine ⟨by rw [relocPass_length], ?_⟩
    rw [relocPass_getD wv rr 0 _ i dp hi, Nat.zero_add]
    set p := ps.getD i dp with hp
    simp only [reloc1, mul_one]
    split_ifs with hband
    · constructor
      · simp [samePetalExceptX]
      · right
        exact ⟨hband, rfl⟩
    · constructor
      · simp [samePetalExceptX]
      · left
        rfl

/-- Witness for the amended C8: a petal in a one-element collection with
equal old and new widths is untouched. -/
theorem resize_preserve_amended_witness :
    (resizePreserve 100 100 1 [] (fun _ => 0) none (7/10) 0 [testPetal]).length = 1 ∧
    samePetalExceptX
      ((resizePreserve 100 100 1 [] (fun _ => 0) none (7/10) 0 [testPetal]).getD 0 testPetal)
      ([testPetal].getD 0 testPetal) ∧
    (((resizePreserve 100 100 1 [] (fun _ => 0) none (7/10) 0 [testPetal]).getD 0 testPetal).x =
        ([testPetal].getD 0 testPetal).x * resizeScaleX 100 100 ∨
      ((([testPetal].getD 0 testPetal).x * resizeScaleX 100 100 < -100 * (1/2) ∨
          ([testPetal].getD 0 testPetal).x * resizeScaleX 100 100 > 100 * (3/2)) ∧
        ((resizePreserve 100 100 1 [] (fun _ => 0) none (7/10) 0 [testPetal]).getD 0
            testPetal).x =
          randQ (-100 * (1/4)) (100 * (35/100)) 0)) :=
  resize_preserve_amended 100 100 (7/10) 0 (fun _ => 0) [] [testPetal] testPetal 0
    (by norm_num)

/-- C3: for every alpha seed in `[0,1]` and every rational visibility boost
(the boost is clamped inside the function), the derived petal alpha lies in
the fixed global bounds `[0.42, 0.95]`. -/
theorem getPetalAlpha_within_global_bounds (boost seed : ℚ)
    (hs0 : 0 ≤ seed) (hs1 : seed ≤ 1) :
    42/100 ≤ getPetalAlpha boost seed ∧ getPetalAlpha boost seed ≤ 95/100 := by
  unfold getPetalAlpha clampQ
  constructor
  · exact le_max_left _ _
  · exact max_le (by norm_num) (min_le_left _ _)

/-- Witness for C3 at seed `1/2`, boost `3`. -/
theorem getPetalAlpha_bounds_witness :
    42/100 ≤ getPetalAlpha 3 (1/2) ∧ getPetalAlpha 3 (1/2) ≤ 95/100 :=
  getPetalAlpha_within_global_bounds 3 (1/2) (by norm_num) (by norm_num)

/-- C5 counterexample: with exactly forced colors and increased contrast
active (all other signals at their non-boosting defaults) the computed
boost is `0.95`, not `1.0` as the claim states. -/
theorem visibilityBoost_scenario_counterexample :
    updateVisibilityBoostValue (some true) (some false) (some false) (some true) (some true) = 95/100 ∧
      updateVisibilityBoostValue (some true) (some false) (some false) (some true) (some true) ≠ 1 := by
  constructor
  · norm_num [updateVisibilityBoostValue, clampQ]
  · norm_num [updateVisibilityBoostValue, clampQ]

/-- C5 amended: the boost is the clamped-to-`[0,1]` weighted sum with
weights `+0.45` increased contrast, `+0.5` forced colors, `+0.25` reduced
transparency, `+0.2` narrow gamut, `-0.2` decreased contrast (matching the
spec-modelled formula for every combination of available signals), and in
the forced-colors + increased-contrast scenario it equals `0.95`. -/
theorem visibilityBoost_weighted_clamped_sum :
    (∀ m f rt ng dc : Bool,
      updateVisibilityBoostValue (some m) (some dc) (some rt) (some f) (some !ng) =
        specVisibilityBoost m f rt ng dc) ∧
    (∀ dc rt : Bool,
      updateVisibilityBoostValue none (some dc) (some rt) none none =
        specVisibilityBoost false false rt false dc) ∧
    updateVisibilityBoostValue (some true) (some false) (some false) (some true) (some true) = 95/100 := by
  refine ⟨?_, ?_, ?_⟩
  · intro m f rt ng dc
    cases ng <;> rfl
  · intro dc rt
    rfl
  · norm_num [updateVisibilityBoostValue, clampQ]

/-- C7: the target particle count computed in `resize()` agrees with the
spec's clamp/round formula for every viewport size and preset count scale,
and for a `1100 x 700` viewport at preset scale 1 it equals 42. -/
theorem resize_target_count_formula :
    (∀ wv hv cs : ℚ, resizeTargetCount wv hv cs = specTargetCount wv hv cs) ∧
    resizeTargetCount 1100 700 1 = 42 := by
  constructor
  · intro wv hv cs
    rfl
  · norm_num [resizeTargetCount, jsRound, config]

end Petals
